import Mathlib

set_option maxRecDepth 8000

/-!
Verification of the tokentracker core (provider registry, providers,
tracker orchestration, token cache, pricing) against its specification.

The Go source is shallowly embedded:
* Go `int` values are modelled as `Int` (token tallies coming out of the
  counting pipeline are nonnegative and are computed in `Nat`, then coerced);
* Go `float64` values are modelled exactly as IEEE-754 binary64 numbers in
  the positive normal range (plus zero), represented as a mantissa/exponent
  pair with round-to-nearest, ties-to-even; the inputs appearing in the
  claims never leave that range;
* Go `error` values (`TokenTrackerError`) are modelled as a kind/message
  pair with an optional wrapped cause;
* the tiktoken encoder and `encoding/json` marshalling used by the
  providers are external collaborators; they are abstracted as an
  environment of total string-valued functions (`tiktoken.GetEncoding`
  with the constant encoding names used by the source always succeeds,
  and `json.Marshal` of the message/tool structures never fails);
* `map[string]interface{}` response payloads are modelled by the inductive
  `GoValue` whose numeric leaves are integral `float64` values (all token
  payloads in the spec and tests are integral);
* the registry's Go map is modelled as a list of providers in iteration
  order; theorems about resolution quantify over every order.
-/

namespace TokenTracker

/-! ## Errors (src/errors.go) -/

/-- Error kind constant from src/errors.go. -/
def ErrInvalidModel : String := "invalid_model"

/-- Error kind constant from src/errors.go. -/
def ErrInvalidParams : String := "invalid_params"

/-- Error kind constant from src/errors.go. -/
def ErrProviderNotFound : String := "provider_not_found"

/-- Error kind constant from src/errors.go. -/
def ErrTokenizationFailed : String := "tokenization_failed"

/-- Error kind constant from src/errors.go. -/
def ErrPricingNotFound : String := "pricing_not_found"

/-- Modelled from the spec: the constant `ErrPricingUpdateFailed` is used by
`DefaultTokenTracker.UpdateAllPricing` and `RegisterSDKClient` and is listed
in the error taxonomy (`PricingUpdateFailed`) of the spec and in
docs/api.md, but its defining declaration is not among the source files;
its string value follows the evident naming convention of src/errors.go. -/
def ErrPricingUpdateFailed : String := "pricing_update_failed"

/-- TokenTrackerError from src/errors.go: a kind (`Type`), a message, and an
optional wrapped cause (the `Cause` field holds another error; within the
core the wrapped causes are themselves TokenTrackerError values). -/
inductive TokenTrackerError where
  | mk (etype : String) (emsg : String) (cause : Option TokenTrackerError)

/-- Type field accessor of TokenTrackerError. -/
def TokenTrackerError.etype : TokenTrackerError → String
  | .mk t _ _ => t

/-- Message field accessor of TokenTrackerError. -/
def TokenTrackerError.emsg : TokenTrackerError → String
  | .mk _ m _ => m

/-- Cause field accessor of TokenTrackerError (Unwrap in the source). -/
def TokenTrackerError.cause : TokenTrackerError → Option TokenTrackerError
  | .mk _ _ c => c

/-- NewError from src/errors.go. -/
def NewError (etype emsg : String) (cause : Option TokenTrackerError) : TokenTrackerError :=
  .mk etype emsg cause

/-! ## IEEE-754 binary64 model (Go float64)

A positive normal double (or zero) is a pair `⟨m, e⟩` denoting `m * 2^e`;
nonzero canonical values keep `2^52 ≤ m < 2^53`.  `roundRat` rounds a
positive rational to the nearest double (ties to even), which is exactly
what the Go compiler does to a decimal literal, and `mulDbl`/`addDbl` are
the IEEE operations (exact product/sum, then one rounding), valid on the
normal range, which all values in the claims inhabit. -/

structure Dbl where
  m : Nat
  e : Int
  deriving DecidableEq, Repr

/-- Number of binary digits of a natural number (0 for 0), by fuel-indexed
structural recursion so that the kernel can evaluate it. -/
def bitLenAux : Nat → Nat → Nat
  | 0, _ => 0
  | fuel + 1, n => if n = 0 then 0 else bitLenAux fuel (n / 2) + 1

/-- Number of binary digits of a natural number: `2^(bitLen n - 1) ≤ n < 2^(bitLen n)` for `n > 0`. -/
def bitLen (n : Nat) : Nat := bitLenAux n n

/-- Round the rational `n / d` (with `d > 0`) to the nearest integer,
ties to even. -/
def roundMantissa (n d : Nat) : Nat :=
  let q := n / d
  let r := n % d
  if d < 2 * r then q + 1
  else if 2 * r < d then q
  else if q % 2 = 0 then q else q + 1

/-- Renormalize a mantissa that may have rounded up to `2^53`. -/
def norm53 (m : Nat) (e : Int) : Dbl :=
  if m = 2 ^ 53 then ⟨2 ^ 52, e + 1⟩ else ⟨m, e⟩

/-- Round the value `n * 2^e` to the nearest double (ties to even). -/
def normRound (n : Nat) (e : Int) : Dbl :=
  if n = 0 then ⟨0, 0⟩
  else
    let L := bitLen n
    if L ≤ 53 then ⟨n * 2 ^ (53 - L), e - (53 - L)⟩
    else
      let s := L - 53
      norm53 (roundMantissa n (2 ^ s)) (e + s)

/-- Nearest double to the positive rational `num / den` (ties to even):
the value a Go decimal literal `num/den` denotes after conversion to
float64. -/
def roundRat (num den : Nat) : Dbl :=
  if num = 0 then ⟨0, 0⟩
  else
    let E0 : Int := (bitLen num : Int) - (bitLen den : Int)
    let ge : Bool :=
      if 0 ≤ E0 then den * 2 ^ E0.toNat ≤ num else den ≤ num * 2 ^ (-E0).toNat
    let E : Int := if ge then E0 else E0 - 1
    let t : Int := 52 - E
    let mant :=
      if 0 ≤ t then roundMantissa (num * 2 ^ t.toNat) den
      else roundMantissa num (den * 2 ^ (-t).toNat)
    norm53 mant (E - 52)

/-- IEEE double multiplication on the model (exact product, one rounding). -/
def mulDbl (x y : Dbl) : Dbl := normRound (x.m * y.m) (x.e + y.e)

/-- IEEE double addition on the model (exact sum, one rounding). -/
def addDbl (x y : Dbl) : Dbl :=
  let e := min x.e y.e
  normRound (x.m * 2 ^ (x.e - e).toNat + y.m * 2 ^ (y.e - e).toNat) e

/-- Go conversion `float64(n)` for a nonnegative int `n`. -/
def intToDbl (n : Nat) : Dbl := normRound n 0

/-! ## Data model (src/models.go, src/config.go) -/

/-- TokenCount from src/models.go (Go int fields). -/
structure TokenCount where
  inputTokens : Int
  responseTokens : Int
  totalTokens : Int
  deriving DecidableEq, Repr

/-- Price from src/models.go (float64 cost fields). -/
structure Price where
  inputCost : Dbl
  outputCost : Dbl
  totalCost : Dbl
  currency : String
  deriving DecidableEq, Repr

/-- ModelPricing from src/config.go. -/
structure ModelPricing where
  inputPricePerToken : Dbl
  outputPricePerToken : Dbl
  currency : String
  deriving DecidableEq, Repr

/-- The provider/model pricing table of Config (src/config.go), as an
association structure: provider name to model name to pricing. -/
def Config : Type := List (String × List (String × ModelPricing))

/-- Association-list lookup (first match), the model of a Go map read. -/
def lookupA {α : Type} : List (String × α) → String → Option α
  | [], _ => none
  | (k, v) :: rest, key => if k = key then some v else lookupA rest key

/-- Config.GetModelPricing from src/config.go. -/
def GetModelPricing (c : Config) (provider model : String) : Option ModelPricing :=
  match lookupA c provider with
  | none => none
  | some providerConfig => lookupA providerConfig model

/-- NewConfig from src/config.go: the default pricing table; every decimal
literal is the float64 it rounds to. -/
def NewConfig : Config :=
  [ ("openai",
      [ ("gpt-3.5-turbo", ⟨roundRat 15 10000000, roundRat 2 1000000, "USD"⟩),
        ("gpt-4", ⟨roundRat 3 100000, roundRat 6 100000, "USD"⟩) ]),
    ("anthropic",
      [ ("claude-3-haiku", ⟨roundRat 25 100000000, roundRat 125 100000000, "USD"⟩),
        ("claude-3-sonnet", ⟨roundRat 3 1000000, roundRat 15 1000000, "USD"⟩),
        ("claude-3-opus", ⟨roundRat 1 100000, roundRat 3 100000, "USD"⟩) ]),
    ("gemini",
      [ ("gemini-pro", ⟨roundRat 25 100000000, roundRat 5 10000000, "USD"⟩),
        ("gemini-ultra", ⟨roundRat 1 100000, roundRat 3 100000, "USD"⟩) ]) ]

/-! ## Token cache (src/unnamed/part_018, package tokentracker utils)

The process-wide cache is modelled by explicit state passing: a list of
(key, count) entries, where an insert prepends and a lookup takes the first
match (last write wins, the semantics of the Go map it models). -/

/-- hashString from the source: identity for strings of at most 100 bytes;
longer strings are folded to 50-byte prefix and suffix plus the length
(`fmt.Sprintf("%s...%s:%d", s[:50], s[len(s)-50:], len(s))`; Go slices
bytes, modelled here by byte-position extraction). -/
def hashString (s : String) : String :=
  if 100 < s.utf8ByteSize then
    (s.extract ⟨0⟩ ⟨50⟩) ++ "..." ++ (s.extract ⟨s.utf8ByteSize - 50⟩ ⟨s.utf8ByteSize⟩)
      ++ ":" ++ toString s.utf8ByteSize
  else s

/-- The cache state: the `cache map[string]int` of the global tokenCache. -/
def Cache : Type := List (String × Nat)

/-- The key string built by both cache operations:
`fmt.Sprintf("%s:%s:%s", provider, model, hashString(text))`. -/
def cacheKey (provider model text : String) : String :=
  provider ++ ":" ++ model ++ ":" ++ hashString text

/-- GetCachedTokenCount from the source (`some` plays the role of the
`(count, true)` return). -/
def GetCachedTokenCount (c : Cache) (provider model text : String) : Option Nat :=
  lookupA c (cacheKey provider model text)

/-- SetCachedTokenCount from the source. -/
def SetCachedTokenCount (c : Cache) (provider model text : String) (count : Nat) : Cache :=
  (cacheKey provider model text, count) :: c

/-! ## String containment (Go strings.Contains) -/

/-- Whether `pat` occurs at the head of `s`. -/
def startsWithL : List Char → List Char → Bool
  | _, [] => true
  | [], _ :: _ => false
  | a :: as, b :: bs => a = b && startsWithL as bs

/-- Whether `pat` occurs somewhere in `s`. -/
def containsL : List Char → List Char → Bool
  | [], pat => pat.isEmpty
  | s@(_ :: rest), pat => startsWithL s pat || containsL rest pat

/-- Go `strings.Contains s pat`. -/
def strContains (s pat : String) : Bool := containsL s.toList pat.toList

/-- EstimateResponseTokens from src/unnamed/part_018 (package tokentracker):
the shared heuristic multiplier policy.  Token tallies are nonnegative,
so Go's truncating int division agrees with Nat division. -/
def EstimateResponseTokens (model : String) (inputTokens : Nat) : Nat :=
  if strContains model "gpt-4" then inputTokens
  else if strContains model "gpt-3.5" then inputTokens / 2
  else if strContains model "claude" then
    if strContains model "opus" then inputTokens * 2
    else if strContains model "sonnet" then inputTokens
    else inputTokens / 2
  else if strContains model "gemini" then
    if strContains model "ultra" then inputTokens * 3 / 2
    else inputTokens / 2
  else inputTokens / 2

/-! ## Dynamic values and request parameters (src/models.go)

`GoValue` models the `interface{}` payloads flowing through response
extraction: the `map[string]interface{}` shape, strings, and numeric
leaves.  JSON numbers decode to float64 in Go; the payloads in the spec
and the tests are integral, and the model restricts numeric leaves to
integral float64 values, represented by their integer. -/

inductive GoValue where
  | nil
  | num (n : Int)
  | str (s : String)
  | strMap (fields : List (String × GoValue))
  | arr (elems : List GoValue)
  | other

/-- Lookup in a `map[string]interface{}` payload. -/
def lookupGV : List (String × GoValue) → String → Option GoValue
  | [], _ => none
  | (k, v) :: rest, key => if k = key then some v else lookupGV rest key

/-- ContentPart from src/models.go (fields Type, Text, Image). -/
structure ContentPart where
  partType : String
  text : String
  image : GoValue

/-- The dynamic `Content` field of a Message: a plain string, a typed
`[]ContentPart`, a decoded-JSON `[]interface{}`, or anything else. -/
inductive MsgContent where
  | str (s : String)
  | parts (ps : List ContentPart)
  | dyn (vs : List GoValue)
  | other (v : GoValue)

/-- Message from src/models.go. -/
structure Message where
  role : String
  content : MsgContent

/-- Tool from src/models.go (fields Type, Function). -/
structure Tool where
  toolType : String
  function : GoValue

/-- ToolChoice from src/models.go. -/
structure ToolChoice where
  choiceType : String
  function : GoValue

/-- TokenCountParams from src/models.go. -/
structure TokenCountParams where
  model : String
  text : Option String
  messages : List Message
  tools : List Tool
  toolChoice : Option ToolChoice
  countResponseTokens : Bool

/-- ExtractTextFromMessages from src/unnamed/part_018 (package tokentracker):
concatenates every piece of text content, each followed by a newline. -/
def ExtractTextFromMessages (messages : List Message) : String :=
  messages.foldl (fun acc msg =>
    match msg.content with
    | .str s => acc ++ s ++ "\n"
    | .parts ps =>
        ps.foldl (fun a p => if p.partType = "text" then a ++ p.text ++ "\n" else a) acc
    | .dyn vs =>
        vs.foldl (fun a v =>
          match v with
          | .strMap fields =>
              match lookupGV fields "type" with
              | some (.str "text") =>
                  match lookupGV fields "text" with
                  | some (.str t) => a ++ t ++ "\n"
                  | _ => a
              | _ => a
          | _ => a) acc
    | .other _ => acc) ""

/-! ## Provider environment

The providers call two external collaborators: the tiktoken encoder
(OpenAI) and `encoding/json` marshalling.  Both are abstracted as total
functions: `tiktoken.GetEncoding` is invoked only with the constant names
"cl100k_base"/"r50k_base" and succeeds, and `json.Marshal` of the message,
tool and tool-choice structures never fails. -/

structure Env where
  encLen : String → Nat
  marshalMessages : List Message → String
  marshalTools : List Tool → String
  marshalToolChoice : ToolChoice → String

/-! ## OpenAI provider (src/providers/openai.go, first listing) -/

/-- OpenAIProvider.SupportsModel from the source allow-list. -/
def openaiSupportsModel (model : String) : Bool :=
  model = "gpt-3.5-turbo" || model = "gpt-3.5-turbo-16k" || model = "gpt-4" ||
  model = "gpt-4-turbo" || model = "gpt-4-32k" || model = "gpt-4o" ||
  model = "text-embedding-ada"

/-- OpenAIProvider.countMessageTokens (lines 211-246): tokens of the
marshalled messages, plus tools and tool-choice JSON when present, plus 3
for the message format. -/
def openaiCountMessageTokens (env : Env) (messages : List Message)
    (tools : List Tool) (toolChoice : Option ToolChoice) : Nat :=
  let tokens := env.encLen (env.marshalMessages messages)
  let tokens := if tools.isEmpty then tokens else tokens + env.encLen (env.marshalTools tools)
  let tokens :=
    match toolChoice with
    | none => tokens
    | some tc => tokens + env.encLen (env.marshalToolChoice tc)
  tokens + 3

/-- OpenAIProvider.estimateResponseTokens delegates to the shared
EstimateResponseTokens. -/
def openaiEstimateResponseTokens (model : String) (inputTokens : Nat) : Nat :=
  EstimateResponseTokens model inputTokens

/-- OpenAIProvider.CountTokens (lines 45-83). -/
def openaiCountTokens (env : Env) (params : TokenCountParams) :
    Except TokenTrackerError TokenCount :=
  if params.model = "" then
    .error (NewError ErrInvalidParams "model is required" none)
  else
    match params.text with
    | some t =>
        let inputTokens := env.encLen t
        let responseTokens :=
          if params.countResponseTokens then
            openaiEstimateResponseTokens params.model inputTokens
          else 0
        .ok ⟨inputTokens, responseTokens, inputTokens + responseTokens⟩
    | none =>
        if params.messages.isEmpty then
          .error (NewError ErrInvalidParams "either text or messages must be provided" none)
        else
          let inputTokens :=
            openaiCountMessageTokens env params.messages params.tools params.toolChoice
          let responseTokens :=
            if params.countResponseTokens then
              openaiEstimateResponseTokens params.model inputTokens
            else 0
          .ok ⟨inputTokens, responseTokens, inputTokens + responseTokens⟩

/-- OpenAIProvider.CalculatePrice (lines 86-108). -/
def openaiCalculatePrice (config : Config) (model : String)
    (inputTokens outputTokens : Nat) : Except TokenTrackerError Price :=
  if model = "" then
    .error (NewError ErrInvalidParams "model is required" none)
  else
    match GetModelPricing config "openai" model with
    | none =>
        .error (NewError ErrPricingNotFound ("pricing not found for model: " ++ model) none)
    | some pricing =>
        let inputCost := mulDbl (intToDbl inputTokens) pricing.inputPricePerToken
        let outputCost := mulDbl (intToDbl outputTokens) pricing.outputPricePerToken
        .ok ⟨inputCost, outputCost, addDbl inputCost outputCost, pricing.currency⟩

/-- OpenAIProvider.ExtractTokenUsageFromResponse (lines 128-160): reads
usage.prompt_tokens, usage.completion_tokens and usage.total_tokens and
returns them verbatim (the reported total is NOT recomputed). -/
def openaiExtractTokenUsage (response : GoValue) : Except TokenTrackerError TokenCount :=
  match response with
  | .nil => .error (NewError ErrInvalidParams "response is nil" none)
  | .strMap fields =>
      match lookupGV fields "usage" with
      | some (.strMap usage) =>
          match lookupGV usage "prompt_tokens",
                lookupGV usage "completion_tokens",
                lookupGV usage "total_tokens" with
          | some (.num promptTokens), some (.num completionTokens), some (.num totalTokens) =>
              .ok ⟨promptTokens, completionTokens, totalTokens⟩
          | _, _, _ =>
              .error (NewError ErrInvalidParams "token counts not found in response" none)
      | _ => .error (NewError ErrInvalidParams "usage information not found in response" none)
  | _ => .error (NewError ErrInvalidParams "response is not a map" none)

/-! ## Claude provider (src/providers/claude.go) -/

/-- ClaudeProvider.SupportsModel. -/
def claudeSupportsModel (model : String) : Bool :=
  model = "claude-3-haiku" || model = "claude-3-sonnet" || model = "claude-3-opus"

/-- ClaudeProvider.approximateTokenCount (lines 192-213): consults the
cache under ("anthropic", "", text); on a miss computes
`RuneCount(text) * 95 / 400 + 5` and caches it. -/
def claudeApproximateTokenCount (c : Cache) (text : String) : Nat × Cache :=
  match GetCachedTokenCount c "anthropic" "" text with
  | some count => (count, c)
  | none =>
      let charCount := text.length
      let tokenCount := charCount * 95 / 400 + 5
      (tokenCount, SetCachedTokenCount c "anthropic" "" text tokenCount)

/-- ClaudeProvider.countMessageTokens (lines 216-244). -/
def claudeCountMessageTokens (env : Env) (c : Cache) (messages : List Message)
    (tools : List Tool) (toolChoice : Option ToolChoice) : Nat × Cache :=
  let (tokens, c) := claudeApproximateTokenCount c (ExtractTextFromMessages messages)
  let tokens := tokens + messages.length * 6
  let (tokens, c) :=
    if tools.isEmpty then (tokens, c)
    else
      let (tt, c) := claudeApproximateTokenCount c (env.marshalTools tools)
      (tokens + tt, c)
  match toolChoice with
  | none => (tokens, c)
  | some tc =>
      let (tt, c) := claudeApproximateTokenCount c (env.marshalToolChoice tc)
      (tokens + tt, c)

/-- ClaudeProvider.estimateResponseTokens (lines 247-259). -/
def claudeEstimateResponseTokens (model : String) (inputTokens : Nat) : Nat :=
  if strContains model "opus" then inputTokens * 2
  else if strContains model "sonnet" then inputTokens * 3 / 2
  else if strContains model "haiku" then inputTokens
  else EstimateResponseTokens model inputTokens

/-- ClaudeProvider.CountTokens (lines 54-83), with the global cache passed
explicitly. -/
def claudeCountTokens (env : Env) (c : Cache) (params : TokenCountParams) :
    Except TokenTrackerError TokenCount × Cache :=
  if params.model = "" then
    (.error (NewError ErrInvalidParams "model is required" none), c)
  else
    match params.text with
    | some t =>
        let (inputTokens, c) := claudeApproximateTokenCount c t
        let responseTokens :=
          if params.countResponseTokens then
            claudeEstimateResponseTokens params.model inputTokens
          else 0
        (.ok ⟨inputTokens, responseTokens, inputTokens + responseTokens⟩, c)
    | none =>
        if params.messages.isEmpty then
          (.error (NewError ErrInvalidParams "either text or messages must be provided" none), c)
        else
          let (inputTokens, c) :=
            claudeCountMessageTokens env c params.messages params.tools params.toolChoice
          let responseTokens :=
            if params.countResponseTokens then
              claudeEstimateResponseTokens params.model inputTokens
            else 0
          (.ok ⟨inputTokens, responseTokens, inputTokens + responseTokens⟩, c)

/-- ClaudeProvider.CalculatePrice (lines 86-101): no empty-model guard. -/
def claudeCalculatePrice (config : Config) (model : String)
    (inputTokens outputTokens : Nat) : Except TokenTrackerError Price :=
  match GetModelPricing config "anthropic" model with
  | none =>
      .error (NewError ErrPricingNotFound ("pricing not found for model: " ++ model) none)
  | some pricing =>
      let inputCost := mulDbl (intToDbl inputTokens) pricing.inputPricePerToken
      let outputCost := mulDbl (intToDbl outputTokens) pricing.outputPricePerToken
      .ok ⟨inputCost, outputCost, addDbl inputCost outputCost, pricing.currency⟩

/-- ClaudeProvider.ExtractTokenUsageFromResponse (lines 124-156): reads
usage.input_tokens and usage.output_tokens and RECOMPUTES the total as
their sum. -/
def claudeExtractTokenUsage (response : GoValue) : Except TokenTrackerError TokenCount :=
  match response with
  | .nil => .error (NewError ErrInvalidParams "response is nil" none)
  | .strMap fields =>
      match lookupGV fields "usage" with
      | some (.strMap usage) =>
          match lookupGV usage "input_tokens", lookupGV usage "output_tokens" with
          | some (.num inputTokens), some (.num outputTokens) =>
              .ok ⟨inputTokens, outputTokens, inputTokens + outputTokens⟩
          | _, _ =>
              .error (NewError ErrInvalidParams "token counts not found in response" none)
      | _ => .error (NewError ErrInvalidParams "usage information not found in response" none)
  | _ => .error (NewError ErrInvalidParams "response is not a map" none)

/-! ## Gemini provider (src/providers/gemini.go) -/

/-- GeminiProvider.SupportsModel. -/
def geminiSupportsModel (model : String) : Bool :=
  model = "gemini-pro" || model = "gemini-ultra"

/-- GeminiProvider.approximateTokenCount (lines 93-112): cache under
("gemini", "", text); on a miss `RuneCount(text) / 4 + 3`. -/
def geminiApproximateTokenCount (c : Cache) (text : String) : Nat × Cache :=
  match GetCachedTokenCount c "gemini" "" text with
  | some count => (count, c)
  | none =>
      let charCount := text.length
      let tokenCount := charCount / 4 + 3
      (tokenCount, SetCachedTokenCount c "gemini" "" text tokenCount)

/-- GeminiProvider.countMessageTokens (lines 115-142). -/
def geminiCountMessageTokens (env : Env) (c : Cache) (messages : List Message)
    (tools : List Tool) (toolChoice : Option ToolChoice) : Nat × Cache :=
  let (tokens, c) := geminiApproximateTokenCount c (ExtractTextFromMessages messages)
  let tokens := tokens + messages.length * 4
  let (tokens, c) :=
    if tools.isEmpty then (tokens, c)
    else
      let (tt, c) := geminiApproximateTokenCount c (env.marshalTools tools)
      (tokens + tt, c)
  match toolChoice with
  | none => (tokens, c)
  | some tc =>
      let (tt, c) := geminiApproximateTokenCount c (env.marshalToolChoice tc)
      (tokens + tt, c)

/-- GeminiProvider.CountTokens (lines 42-71). -/
def geminiCountTokens (env : Env) (c : Cache) (params : TokenCountParams) :
    Except TokenTrackerError TokenCount × Cache :=
  if params.model = "" then
    (.error (NewError ErrInvalidParams "model is required" none), c)
  else
    match params.text with
    | some t =>
        let (inputTokens, c) := geminiApproximateTokenCount c t
        let responseTokens :=
          if params.countResponseTokens then
            EstimateResponseTokens params.model inputTokens
          else 0
        (.ok ⟨inputTokens, responseTokens, inputTokens + responseTokens⟩, c)
    | none =>
        if params.messages.isEmpty then
          (.error (NewError ErrInvalidParams "either text or messages must be provided" none), c)
        else
          let (inputTokens, c) :=
            geminiCountMessageTokens env c params.messages params.tools params.toolChoice
          let responseTokens :=
            if params.countResponseTokens then
              EstimateResponseTokens params.model inputTokens
            else 0
          (.ok ⟨inputTokens, responseTokens, inputTokens + responseTokens⟩, c)

/-! ## Provider interface and registry (src/provider.go)

A registered provider is its observable behaviour behind the Provider
interface; the registry's Go map is a list of providers in iteration
order (map iteration order is unspecified, so theorems quantify over the
order).  `updatePricing` is the outcome of the provider's UpdatePricing
call (`none` means success). -/

structure ProviderI where
  name : String
  supportsModel : String → Bool
  countTokens : TokenCountParams → Except TokenTrackerError TokenCount
  calculatePrice : String → Int → Int → Except TokenTrackerError Price
  updatePricing : Option TokenTrackerError
  extractTokenUsageFromResponse : GoValue → Except TokenTrackerError TokenCount

/-- ProviderRegistry.GetForModel (src/provider.go lines 61-72): the first
provider in iteration order whose SupportsModel returns true. -/
def getForModel (reg : List ProviderI) (model : String) : Option ProviderI :=
  match reg with
  | [] => none
  | p :: rest => if p.supportsModel model then some p else getForModel rest model

/-- ProviderRegistry.Get (lines 53-58): exact-name lookup. -/
def registryGet (reg : List ProviderI) (nm : String) : Option ProviderI :=
  match reg with
  | [] => none
  | p :: rest => if p.name = nm then some p else registryGet rest nm

/-! ## Tracker (src/unnamed/part_000, DefaultTokenTracker) -/

/-- UsageMetrics from src/models.go, with the Go time values (duration,
timestamp) modelled as integers supplied by an explicit clock. -/
structure UsageMetrics where
  tokenCount : TokenCount
  price : Price
  duration : Int
  timestamp : Int
  model : String
  provider : String

/-- CallParams from src/models.go. -/
structure CallParams where
  model : String
  params : TokenCountParams
  startTime : Int

/-- DefaultTokenTracker.CountTokens (part_000 lines 104-115). -/
def trackerCountTokens (reg : List ProviderI) (params : TokenCountParams) :
    Except TokenTrackerError TokenCount :=
  if params.model = "" then
    .error (NewError ErrInvalidParams "model is required" none)
  else
    match getForModel reg params.model with
    | none =>
        .error (NewError ErrProviderNotFound ("no provider found for model: " ++ params.model) none)
    | some provider => provider.countTokens params

/-- DefaultTokenTracker.CalculatePrice (part_000 lines 118-129). -/
def trackerCalculatePrice (reg : List ProviderI) (model : String)
    (inputTokens outputTokens : Int) : Except TokenTrackerError Price :=
  if model = "" then
    .error (NewError ErrInvalidParams "model is required" none)
  else
    match getForModel reg model with
    | none =>
        .error (NewError ErrProviderNotFound ("no provider found for model: " ++ model) none)
    | some provider => provider.calculatePrice model inputTokens outputTokens

/-- The loop of DefaultTokenTracker.UpdateAllPricing (part_000 lines 79-83):
walks the providers accumulating `lastErr`, and records the name of every
provider whose UpdatePricing was invoked. -/
def updateAllPricingRun :
    List ProviderI → Option TokenTrackerError → List String × Option TokenTrackerError
  | [], lastErr => ([], lastErr)
  | p :: rest, lastErr =>
      let res := p.updatePricing
      let lastErr' := match res with | some e => some e | none => lastErr
      let (called, final) := updateAllPricingRun rest lastErr'
      (p.name :: called, final)

/-- DefaultTokenTracker.UpdateAllPricing (part_000 lines 75-90), returning
both the trace of invoked providers and the Go result. -/
def updateAllPricing (reg : List ProviderI) : List String × Except TokenTrackerError Unit :=
  let (called, lastErr) := updateAllPricingRun reg none
  (called,
    match lastErr with
    | some e =>
        .error (NewError ErrPricingUpdateFailed
          "failed to update pricing for one or more providers" (some e))
    | none => .ok ())

/-- The `response interface{}` argument of TrackUsage: either it implements
the duck-typed `GetTokenCount() int` accessor, or it is a plain value. -/
inductive TrackResponse where
  | withTokenCount (n : Int)
  | plain (v : GoValue)

/-- The capability query `response.(interface{ GetTokenCount() int })`. -/
def getTokenCountAccessor : TrackResponse → Option Int
  | .withTokenCount n => some n
  | .plain _ => none

/-- Outcome of TrackUsage: a metrics record, an error, or the nil-pointer
dereference that `provider.Name()` commits when the unchecked second
GetForModel resolution (part_000 lines 172-173) finds no provider. -/
inductive TrackResult where
  | ok (m : UsageMetrics)
  | err (e : TokenTrackerError)
  | nilPanic

/-- The output-token determination step of TrackUsage (part_000 lines
139-160): use the duck-typed accessor when the response has one, else
re-run the resolved provider's counting with CountResponseTokens set,
silently falling back to 0 when that secondary count fails or no provider
resolves. -/
def trackUsageOutputTokens (reg : List ProviderI) (callParams : CallParams)
    (response : TrackResponse) : Int :=
  match getTokenCountAccessor response with
  | some n => n
  | none =>
      match getForModel reg callParams.model with
      | some provider =>
          let estimateParams := { callParams.params with countResponseTokens := true }
          match provider.countTokens estimateParams with
          | .ok estimate => estimate.responseTokens
          | .error _ => 0
      | none => 0

/-- DefaultTokenTracker.TrackUsage (part_000 lines 132-190); `now` is the
clock reading used for both the duration and the timestamp. -/
def trackUsage (reg : List ProviderI) (callParams : CallParams)
    (response : TrackResponse) (now : Int) : TrackResult :=
  match trackerCountTokens reg callParams.params with
  | .error e => .err e
  | .ok inputCount =>
      let outputTokens : Int := trackUsageOutputTokens reg callParams response
      match trackerCalculatePrice reg callParams.model inputCount.inputTokens outputTokens with
      | .error e => .err e
      | .ok price =>
          let duration := now - callParams.startTime
          match getForModel reg callParams.model with
          | some provider =>
              .ok ⟨⟨inputCount.inputTokens, outputTokens,
                    inputCount.inputTokens + outputTokens⟩,
                   price, duration, now, callParams.model, provider.name⟩
          | none => .nilPanic

/-! ## Statement helpers and concrete instances used by witnesses -/

/-- Reads the numeric field `key` of the `usage` object of a response
payload, if present: used to state what the extraction routines return
relative to the payload they were given. -/
def usageField (resp : GoValue) (key : String) : Option Int :=
  match resp with
  | .strMap fields =>
      match lookupGV fields "usage" with
      | some (.strMap usage) =>
          match lookupGV usage key with
          | some (.num n) => some n
          | _ => none
      | _ => none
  | _ => none

/-- A concrete environment: a one-token-per-character encoder and trivial
marshallers. -/
def envW : Env := ⟨fun s => s.length, fun _ => "[]", fun _ => "[]", fun _ => "{}"⟩

/-- A concrete error produced by failing stub operations. -/
def errW : TokenTrackerError := NewError ErrTokenizationFailed "estimation failed" none

/-- A concrete error produced by a failing pricing update. -/
def pricingErrW : TokenTrackerError := NewError ErrPricingNotFound "no pricing source" none

/-- A concrete price returned by stub providers. -/
def priceW : Price := ⟨⟨0, 0⟩, ⟨0, 0⟩, ⟨0, 0⟩, "USD"⟩

/-- A stub provider supporting exactly "model-a"; its token counting
succeeds with 7 input tokens unless a response estimate is requested, in
which case it fails; pricing updates succeed. -/
def provA : ProviderI :=
  ⟨"alpha", fun m => m = "model-a",
   fun p => if p.countResponseTokens then .error errW else .ok ⟨7, 0, 7⟩,
   fun _ _ _ => .ok priceW, none, fun _ => .error errW⟩

/-- A stub provider supporting exactly "model-b"; its pricing update
fails with `pricingErrW`. -/
def provB : ProviderI :=
  ⟨"beta", fun m => m = "model-b",
   fun _ => .ok ⟨5, 0, 5⟩,
   fun _ _ _ => .ok priceW, some pricingErrW, fun _ => .error errW⟩

/-- Concrete counting parameters: text request for "model-a". -/
def paramsW : TokenCountParams := ⟨"model-a", some "hello", [], [], none, false⟩

/-! ## Theorems -/

/-- If no registered provider supports the model, resolution finds none. -/
theorem getForModel_eq_none (reg : List ProviderI) (model : String)
    (h : ∀ p ∈ reg, p.supportsModel model = false) : getForModel reg model = none := by
  induction reg with
  | nil => rfl
  | cons p rest ih =>
      have hp := h p (List.mem_cons_self p rest)
      simp only [getForModel, hp, Bool.false_eq_true, if_false]
      exact ih fun q hq => h q (List.mem_cons_of_mem p hq)

/-- C5: if exactly one registered provider supports model M, GetForModel
returns that provider, for every registration/iteration order; and if no
registered provider supports M, GetForModel reports not found. -/
theorem getForModel_resolution (reg : List ProviderI) (M : String) (p : ProviderI) :
    (p ∈ reg → p.supportsModel M = true →
      (∀ q ∈ reg, q.supportsModel M = true → q = p) →
      getForModel reg M = some p)
    ∧ ((∀ q ∈ reg, q.supportsModel M = false) → getForModel reg M = none) := by
  constructor
  · intro hmem hsup huniq
    induction reg with
    | nil => cases hmem
    | cons q rest ih =>
        by_cases hq : q.supportsModel M = true
        · have : q = p := huniq q (List.mem_cons_self q rest) hq
          subst this
          simp only [getForModel, hq, if_true]
        · have hmem' : p ∈ rest := by
            rcases List.mem_cons.mp hmem with heq | hmem'
            · exact absurd (heq ▸ hsup) hq
            · exact hmem'
          simp only [getForModel, hq, Bool.false_eq_true, if_false]
          exact ih hmem' fun r hr => huniq r (List.mem_cons_of_mem q hr)
  · exact getForModel_eq_none reg M

/-- Witness for C5: in a two-provider registry where only `provB` supports
"model-b", resolution returns `provB`. -/
theorem getForModel_resolution_witness :
    provB.supportsModel "model-b" = true ∧
    getForModel [provA, provB] "model-b" = some provB := by
  refine ⟨by decide, ?_⟩
  refine (getForModel_resolution [provA, provB] "model-b" provB).1
    (List.Mem.tail _ (List.Mem.head _)) (by decide) ?_
  intro q hq hsq
  rcases List.mem_cons.mp hq with rfl | hq2
  · exact absurd hsq (by decide)
  · rcases List.mem_cons.mp hq2 with rfl | hq3
    · rfl
    · cases hq3

/-- C2: Tracker.CountTokens fails InvalidParams on an empty model, fails
ProviderNotFound when no registered provider supports the model, and
otherwise returns exactly the result of the resolved provider's
CountTokens. -/
theorem trackerCountTokens_spec (reg : List ProviderI) (params : TokenCountParams) :
    (params.model = "" →
      trackerCountTokens reg params =
        .error (NewError ErrInvalidParams "model is required" none))
    ∧ (params.model ≠ "" → (∀ p ∈ reg, p.supportsModel params.model = false) →
      trackerCountTokens reg params =
        .error (NewError ErrProviderNotFound
          ("no provider found for model: " ++ params.model) none))
    ∧ (∀ p, params.model ≠ "" → getForModel reg params.model = some p →
      trackerCountTokens reg params = p.countTokens params) := by
  refine ⟨?_, ?_, ?_⟩
  · intro h
    simp only [trackerCountTokens, h, if_true]
  · intro h hnone
    simp only [trackerCountTokens, h, if_false, getForModel_eq_none reg params.model hnone]
  · intro p h hp
    simp only [trackerCountTokens, h, if_false, hp]

/-- Witness for C2: with registry `[provA, provB]`, an empty model fails
InvalidParams, an unknown model fails ProviderNotFound, and "model-a"
delegates to `provA`. -/
theorem trackerCountTokens_spec_witness :
    trackerCountTokens [provA, provB] ⟨"", some "hi", [], [], none, false⟩ =
      .error (NewError ErrInvalidParams "model is required" none)
    ∧ trackerCountTokens [provA, provB] ⟨"totally-unknown-model", some "hi", [], [], none, false⟩ =
      .error (NewError ErrProviderNotFound
        ("no provider found for model: " ++ "totally-unknown-model") none)
    ∧ trackerCountTokens [provA, provB] paramsW = provA.countTokens paramsW := by
  refine ⟨?_, ?_, ?_⟩
  · exact (trackerCountTokens_spec [provA, provB] _).1 rfl
  · refine (trackerCountTokens_spec [provA, provB] _).2.1 (by decide) ?_
    intro p hp
    rcases List.mem_cons.mp hp with rfl | hp2
    · decide
    · rcases List.mem_cons.mp hp2 with rfl | hp3
      · decide
      · cases hp3
  · exact (trackerCountTokens_spec [provA, provB] paramsW).2.2 provA (by decide) rfl

/-- The pricing-update loop invokes every registered provider, whatever
the accumulated error. -/
theorem updateAllPricingRun_fst (reg : List ProviderI) (acc : Option TokenTrackerError) :
    (updateAllPricingRun reg acc).1 = reg.map (fun p => p.name) := by
  induction reg generalizing acc with
  | nil => rfl
  | cons p rest ih =>
      simp only [updateAllPricingRun, List.map]
      cases p.updatePricing <;> simp [ih]

/-- If every provider's pricing update succeeds, the loop leaves the
accumulated error unchanged. -/
theorem updateAllPricingRun_all_ok (reg : List ProviderI) (acc : Option TokenTrackerError)
    (h : ∀ p ∈ reg, p.updatePricing = none) : (updateAllPricingRun reg acc).2 = acc := by
  induction reg generalizing acc with
  | nil => rfl
  | cons p rest ih =>
      have hp := h p (List.mem_cons_self p rest)
      simp only [updateAllPricingRun, hp]
      exact ih acc fun q hq => h q (List.mem_cons_of_mem p hq)

/-- Once a failure is recorded, the loop's final accumulator is still a
failure (possibly a later one). -/
theorem updateAllPricingRun_some (reg : List ProviderI) (e : TokenTrackerError) :
    ∃ e2, (updateAllPricingRun reg (some e)).2 = some e2 := by
  induction reg generalizing e with
  | nil => exact ⟨e, rfl⟩
  | cons p rest ih =>
      cases hp : p.updatePricing with
      | none => simpa [updateAllPricingRun, hp] using ih e
      | some e3 => simpa [updateAllPricingRun, hp] using ih e3

/-- If the loop reports no failure, every provider's update succeeded. -/
theorem updateAllPricingRun_ok_all (reg : List ProviderI) :
    (updateAllPricingRun reg none).2 = none → ∀ p ∈ reg, p.updatePricing = none := by
  induction reg with
  | nil => intro _ p hp; cases hp
  | cons p rest ih =>
      intro h q hq
      cases hp : p.updatePricing with
      | some e =>
          rw [updateAllPricingRun] at h
          rw [hp] at h
          obtain ⟨e2, he2⟩ := updateAllPricingRun_some rest e
          simp only [he2] at h
          cases h
      | none =>
          rcases List.mem_cons.mp hq with rfl | hq2
          · exact hp
          · rw [updateAllPricingRun] at h
            rw [hp] at h
            exact ih h q hq2

/-- The loop over an appended list runs the first part, then the second
on the accumulated error. -/
theorem updateAllPricingRun_append (l r : List ProviderI) (acc : Option TokenTrackerError) :
    (updateAllPricingRun (l ++ r) acc).2 =
      (updateAllPricingRun r (updateAllPricingRun l acc).2).2 := by
  induction l generalizing acc with
  | nil => rfl
  | cons p rest ih =>
      simp only [List.cons_append, updateAllPricingRun]
      cases p.updatePricing <;> simp [ih]

/-- C6: UpdateAllPricing invokes UpdatePricing on every registered provider
even when earlier ones fail; it succeeds exactly when all providers
succeed, and when some fail it returns a single PricingUpdateFailed error
wrapping the error of the last provider that failed. -/
theorem updateAllPricing_spec (reg : List ProviderI) :
    ((updateAllPricing reg).1 = reg.map (fun p => p.name))
    ∧ ((∀ p ∈ reg, p.updatePricing = none) ↔ (updateAllPricing reg).2 = .ok ())
    ∧ (∀ l p r e, reg = l ++ p :: r → p.updatePricing = some e →
        (∀ q ∈ r, q.updatePricing = none) →
        (updateAllPricing reg).2 =
          .error (NewError ErrPricingUpdateFailed
            "failed to update pricing for one or more providers" (some e))) := by
  refine ⟨?_, ⟨?_, ?_⟩, ?_⟩
  · simp only [updateAllPricing]
    rw [updateAllPricingRun_fst]
  · intro h
    simp only [updateAllPricing]
    rw [updateAllPricingRun_all_ok reg none h]
  · intro h p hp
    simp only [updateAllPricing] at h
    cases hrun : (updateAllPricingRun reg none).2 with
    | none => exact updateAllPricingRun_ok_all reg hrun p hp
    | some e => rw [hrun] at h; cases h
  · intro l p r e hreg hp hr
    subst hreg
    simp only [updateAllPricing]
    rw [updateAllPricingRun_append]
    rw [updateAllPricingRun]
    rw [hp]
    rw [updateAllPricingRun_all_ok r _ hr]

/-- Witness for C6: with `provB` (whose update fails with `pricingErrW`)
followed by `provA` (whose update succeeds), both providers are invoked
and the result is a PricingUpdateFailed error wrapping `provB`'s error. -/
theorem updateAllPricing_spec_witness :
    (updateAllPricing [provB, provA]).1 = ["beta", "alpha"]
    ∧ (updateAllPricing [provB, provA]).2 =
        .error (NewError ErrPricingUpdateFailed
          "failed to update pricing for one or more providers" (some pricingErrW)) := by
  constructor
  · exact (updateAllPricing_spec [provB, provA]).1
  · refine (updateAllPricing_spec [provB, provA]).2.2 [] provB [provA] pricingErrW rfl rfl ?_
    intro q hq
    rcases List.mem_cons.mp hq with rfl | hq2
    · rfl
    · cases hq2

/-- C3: in TrackUsage, when the response has no GetTokenCount accessor and
the secondary estimation count fails, the failure is swallowed: the call
still assembles a successful UsageMetrics with ResponseTokens 0 (the price
step permitting), whereas an error from the initial input-token count is
returned immediately with no metrics. -/
theorem trackUsage_estimation_fallback (reg : List ProviderI) (cp : CallParams)
    (v : GoValue) (now : Int) (inputCount : TokenCount) (p : ProviderI)
    (e : TokenTrackerError) (price : Price) :
    (trackerCountTokens reg cp.params = .ok inputCount →
      getForModel reg cp.model = some p →
      p.countTokens { cp.params with countResponseTokens := true } = .error e →
      trackerCalculatePrice reg cp.model inputCount.inputTokens 0 = .ok price →
      trackUsage reg cp (.plain v) now =
        .ok ⟨⟨inputCount.inputTokens, 0, inputCount.inputTokens + 0⟩,
             price, now - cp.startTime, now, cp.model, p.name⟩)
    ∧ (∀ e2, trackerCountTokens reg cp.params = .error e2 →
        trackUsage reg cp (.plain v) now = .err e2) := by
  constructor
  · intro hcount hres hest hprice
    simp only [trackUsage, trackUsageOutputTokens, hcount, getTokenCountAccessor,
      hres, hest, hprice]
  · intro e2 hcount
    simp only [trackUsage, hcount]

/-- Witness for C3: `provA`'s estimation pass fails, yet TrackUsage
succeeds with ResponseTokens 0; and an empty-model parameter error from
the first count is propagated unchanged. -/
theorem trackUsage_estimation_fallback_witness :
    trackUsage [provA] ⟨"model-a", paramsW, 3⟩ (.plain .nil) 10 =
      .ok ⟨⟨7, 0, 7 + 0⟩, priceW, 10 - 3, 10, "model-a", "alpha"⟩
    ∧ trackUsage [provA] ⟨"model-a", ⟨"", some "hello", [], [], none, false⟩, 3⟩
        (.plain .nil) 10 =
      .err (NewError ErrInvalidParams "model is required" none) := by
  constructor
  · exact (trackUsage_estimation_fallback [provA] ⟨"model-a", paramsW, 3⟩ .nil 10
      ⟨7, 0, 7⟩ provA errW priceW).1 rfl rfl rfl rfl
  · exact (trackUsage_estimation_fallback [provA]
      ⟨"model-a", ⟨"", some "hello", [], [], none, false⟩, 3⟩ .nil 10
      ⟨0, 0, 0⟩ provA errW priceW).2
      (NewError ErrInvalidParams "model is required" none) rfl

/-- C10: if the initial input-token count in TrackUsage succeeds and the
call's model equals the parameters' model, the unchecked second registry
resolution also finds a provider, so the nil-provider dereference branch
is unreachable. -/
theorem trackUsage_no_nil_deref (reg : List ProviderI) (cp : CallParams)
    (resp : TrackResponse) (now : Int) (c : TokenCount) :
    trackerCountTokens reg cp.params = .ok c →
    cp.model = cp.params.model →
    trackUsage reg cp resp now ≠ TrackResult.nilPanic := by
  intro hcount hmodel
  by_cases hm0 : cp.params.model = ""
  · simp only [trackerCountTokens, hm0, if_true] at hcount
    cases hcount
  · cases hgf : getForModel reg cp.params.model with
    | none =>
        rw [trackerCountTokens, if_neg hm0, hgf] at hcount
        cases hcount
    | some p =>
        intro hcontra
        simp only [trackUsage, hcount, hmodel, hgf] at hcontra
        split at hcontra
        · cases hcontra
        · cases hcontra

/-- Witness for C10: a successful count for "model-a" with matching call
model never reaches the nil dereference. -/
theorem trackUsage_no_nil_deref_witness :
    trackUsage [provA] ⟨"model-a", paramsW, 0⟩ (.plain .nil) 0 ≠ TrackResult.nilPanic :=
  trackUsage_no_nil_deref [provA] ⟨"model-a", paramsW, 0⟩ (.plain .nil) 0
    ⟨7, 0, 7⟩ rfl rfl

/-- OpenAI token counting always returns total = input + response. -/
theorem openaiCountTokens_invariant (env : Env) (params : TokenCountParams)
    (tc : TokenCount) (h : openaiCountTokens env params = .ok tc) :
    tc.totalTokens = tc.inputTokens + tc.responseTokens := by
  unfold openaiCountTokens at h
  split at h
  · cases h
  · split at h
    · cases h
      push_cast
      ring
    · split at h
      · cases h
      · cases h
        push_cast
        ring

/-- Claude token counting always returns total = input + response. -/
theorem claudeCountTokens_invariant (env : Env) (c : Cache) (params : TokenCountParams)
    (tc : TokenCount) (c2 : Cache) (h : claudeCountTokens env c params = (.ok tc, c2)) :
    tc.totalTokens = tc.inputTokens + tc.responseTokens := by
  unfold claudeCountTokens at h
  split at h
  · rw [Prod.mk.injEq] at h
    cases h.1
  · split at h
    · split at h
      rw [Prod.mk.injEq] at h
      cases h.1
      push_cast
      ring
    · split at h
      · rw [Prod.mk.injEq] at h
        cases h.1
      · split at h
        rw [Prod.mk.injEq] at h
        cases h.1
        push_cast
        ring

/-- Gemini token counting always returns total = input + response. -/
theorem geminiCountTokens_invariant (env : Env) (c : Cache) (params : TokenCountParams)
    (tc : TokenCount) (c2 : Cache) (h : geminiCountTokens env c params = (.ok tc, c2)) :
    tc.totalTokens = tc.inputTokens + tc.responseTokens := by
  unfold geminiCountTokens at h
  split at h
  · rw [Prod.mk.injEq] at h
    cases h.1
  · split at h
    · split at h
      rw [Prod.mk.injEq] at h
      cases h.1
      push_cast
      ring
    · split at h
      · rw [Prod.mk.injEq] at h
        cases h.1
      · split at h
        rw [Prod.mk.injEq] at h
        cases h.1
        push_cast
        ring

/-- The TokenCount assembled by TrackUsage satisfies total = input + response. -/
theorem trackUsage_tokenCount_invariant (reg : List ProviderI) (cp : CallParams)
    (resp : TrackResponse) (now : Int) (m : UsageMetrics)
    (h : trackUsage reg cp resp now = .ok m) :
    m.tokenCount.totalTokens = m.tokenCount.inputTokens + m.tokenCount.responseTokens := by
  unfold trackUsage at h
  dsimp only at h
  repeat' split at h
  all_goals cases h
  all_goals rfl

/-- Claude extraction recomputes the total as input + output. -/
theorem claudeExtractTokenUsage_invariant (resp : GoValue) (tc : TokenCount)
    (h : claudeExtractTokenUsage resp = .ok tc) :
    tc.totalTokens = tc.inputTokens + tc.responseTokens := by
  unfold claudeExtractTokenUsage at h
  split at h
  · cases h
  · split at h
    · split at h
      · cases h
        rfl
      · cases h
    · cases h
  · cases h

/-- OpenAI extraction returns the payload's prompt, completion and total
fields verbatim. -/
theorem openaiExtractTokenUsage_payload (resp : GoValue) (tc : TokenCount)
    (h : openaiExtractTokenUsage resp = .ok tc) :
    usageField resp "prompt_tokens" = some tc.inputTokens
    ∧ usageField resp "completion_tokens" = some tc.responseTokens
    ∧ usageField resp "total_tokens" = some tc.totalTokens := by
  unfold openaiExtractTokenUsage at h
  split at h
  · cases h
  case _ fields =>
    split at h
    case _ usage husage =>
      split at h
      case _ p c t hp hc ht =>
        cases h
        refine ⟨?_, ?_, ?_⟩ <;> simp only [usageField, husage, hp, hc, ht]
      case _ => cases h
    case _ => cases h
  · cases h

/-- C1 (amended): every TokenCount produced by a provider's CountTokens
and by Tracker.TrackUsage satisfies Total = Input + Response, and Claude's
extraction recomputes the total as input + output; but OpenAI's extraction
copies the payload's prompt/completion/total fields verbatim, so its
TokenCount satisfies the invariant only when the payload's reported
total_tokens equals prompt_tokens + completion_tokens. -/
theorem tokenCount_invariant_amended :
    (∀ env params tc, openaiCountTokens env params = .ok tc →
      tc.totalTokens = tc.inputTokens + tc.responseTokens)
    ∧ (∀ env c params tc c2, claudeCountTokens env c params = (.ok tc, c2) →
      tc.totalTokens = tc.inputTokens + tc.responseTokens)
    ∧ (∀ env c params tc c2, geminiCountTokens env c params = (.ok tc, c2) →
      tc.totalTokens = tc.inputTokens + tc.responseTokens)
    ∧ (∀ reg cp resp now m, trackUsage reg cp resp now = .ok m →
      m.tokenCount.totalTokens = m.tokenCount.inputTokens + m.tokenCount.responseTokens)
    ∧ (∀ resp tc, claudeExtractTokenUsage resp = .ok tc →
      tc.totalTokens = tc.inputTokens + tc.responseTokens)
    ∧ (∀ resp tc, openaiExtractTokenUsage resp = .ok tc →
      usageField resp "prompt_tokens" = some tc.inputTokens
      ∧ usageField resp "completion_tokens" = some tc.responseTokens
      ∧ usageField resp "total_tokens" = some tc.totalTokens) :=
  ⟨openaiCountTokens_invariant, claudeCountTokens_invariant, geminiCountTokens_invariant,
   trackUsage_tokenCount_invariant, claudeExtractTokenUsage_invariant,
   openaiExtractTokenUsage_payload⟩

/-- Counterexample to C1 as stated: OpenAI's extraction accepts a response
map whose usage block reports total_tokens = 100 alongside prompt_tokens =
1 and completion_tokens = 2, and returns that inconsistent total verbatim,
violating TotalTokens = InputTokens + ResponseTokens. -/
theorem tokenCount_invariant_counterexample :
    openaiExtractTokenUsage
      (.strMap [("usage", .strMap [("prompt_tokens", .num 1), ("completion_tokens", .num 2),
        ("total_tokens", .num 100)])]) = .ok ⟨1, 2, 100⟩
    ∧ (100 : Int) ≠ 1 + 2 :=
  ⟨rfl, by decide⟩

/-- Witness for the amended C1: the openai counting conjunct evaluated on
concrete parameters, and the extraction conjunct evaluated on a concrete
payload. -/
theorem tokenCount_invariant_amended_witness :
    (⟨5, 0, 5⟩ : TokenCount).totalTokens =
      (⟨5, 0, 5⟩ : TokenCount).inputTokens + (⟨5, 0, 5⟩ : TokenCount).responseTokens
    ∧ usageField (.strMap [("usage", .strMap [("prompt_tokens", .num 3),
        ("completion_tokens", .num 4), ("total_tokens", .num 7)])]) "total_tokens" =
      some ((⟨3, 4, 7⟩ : TokenCount).totalTokens) := by
  constructor
  · exact tokenCount_invariant_amended.1 envW paramsW ⟨5, 0, 5⟩ rfl
  · exact (tokenCount_invariant_amended.2.2.2.2.2
      (.strMap [("usage", .strMap [("prompt_tokens", .num 3),
        ("completion_tokens", .num 4), ("total_tokens", .num 7)])]) ⟨3, 4, 7⟩ rfl).2.2

/-- C4 (amended): with the default configuration's
ModelPricing{0.00003, 0.00006, "USD"} for "gpt-4",
CalculatePrice("gpt-4", 1000, 500) computes the costs in IEEE-754 double
arithmetic, and the results are NOT the doubles nearest 0.03/0.06: each
cost is exactly one unit in the last place above them
(0.030000000000000002, 0.030000000000000002, 0.060000000000000005). -/
theorem openaiCalculatePrice_gpt4_amended :
    openaiCalculatePrice NewConfig "gpt-4" 1000 500 =
      Except.ok ⟨⟨(roundRat 3 100).m + 1, (roundRat 3 100).e⟩,
                 ⟨(roundRat 3 100).m + 1, (roundRat 3 100).e⟩,
                 ⟨(roundRat 6 100).m + 1, (roundRat 6 100).e⟩, "USD"⟩ := rfl

/-- Counterexample to C4 as stated: the price returned for
("gpt-4", 1000, 500) under the default configuration is not
{0.03, 0.03, 0.06, "USD"} (each cost is one ulp higher, because
1000 * fl(0.00003) and 500 * fl(0.00006) round up). -/
theorem openaiCalculatePrice_gpt4_counterexample :
    openaiCalculatePrice NewConfig "gpt-4" 1000 500 ≠
      Except.ok ⟨roundRat 3 100, roundRat 3 100, roundRat 6 100, "USD"⟩ := by
  intro h
  rw [openaiCalculatePrice_gpt4_amended] at h
  injection h with h2
  have h3 := congrArg (fun p => p.inputCost.m) h2
  exact Nat.succ_ne_self (roundRat 3 100).m h3

/-- Get after Set for the same key returns the stored count. -/
theorem cache_get_after_set (c : Cache) (pr md tx : String) (n : Nat) :
    GetCachedTokenCount (SetCachedTokenCount c pr md tx n) pr md tx = some n := by
  simp [GetCachedTokenCount, SetCachedTokenCount, lookupA]

/-- C7 (amended): the cache behaves as a map keyed by the string
`provider + ":" + model + ":" + hashString(text)`: Get after Set for the
same tuple returns the stored count, and a Set for a tuple whose key
string differs does not change the value observed for the first tuple
(distinct tuples whose key strings coincide do interfere). -/
theorem cache_map_amended (c : Cache) (pr md tx pr2 md2 tx2 : String) (n n2 : Nat) :
    GetCachedTokenCount (SetCachedTokenCount c pr md tx n) pr md tx = some n
    ∧ (cacheKey pr2 md2 tx2 ≠ cacheKey pr md tx →
      GetCachedTokenCount (SetCachedTokenCount c pr2 md2 tx2 n2) pr md tx =
        GetCachedTokenCount c pr md tx) := by
  constructor
  · exact cache_get_after_set c pr md tx n
  · intro hne
    simp [GetCachedTokenCount, SetCachedTokenCount, lookupA, hne]

/-- Witness for the amended C7: two tuples with distinct keys do not
interfere. -/
theorem cache_map_amended_witness :
    cacheKey "a" "b" "u" ≠ cacheKey "a" "b" "t"
    ∧ GetCachedTokenCount (SetCachedTokenCount [] "a" "b" "t" 1) "a" "b" "t" = some 1
    ∧ GetCachedTokenCount (SetCachedTokenCount (SetCachedTokenCount [] "a" "b" "t" 1)
        "a" "b" "u" 2) "a" "b" "t" = some 1 := by
  refine ⟨by decide, (cache_map_amended [] "a" "b" "t" "a" "b" "u" 1 2).1, ?_⟩
  rw [(cache_map_amended (SetCachedTokenCount [] "a" "b" "t" 1) "a" "b" "t" "a" "b" "u" 1 2).2
    (by decide)]
  exact (cache_map_amended [] "a" "b" "t" "a" "b" "u" 1 2).1

/-- Counterexample to C7 as stated: the tuples ("a", "b:c", "t") and
("a:b", "c", "t") are distinct, yet both build the cache key "a:b:c:t", so
a Set for the second tuple overwrites the value the first tuple reads:
after Set(("a","b:c","t"), 1) the read returns 1, and after a further
Set(("a:b","c","t"), 2) the read for the FIRST tuple returns 2. -/
theorem cache_distinct_tuple_counterexample :
    ("a", "b:c", "t") ≠ (("a:b", "c", "t") : String × String × String)
    ∧ GetCachedTokenCount (SetCachedTokenCount [] "a" "b:c" "t" 1) "a" "b:c" "t" = some 1
    ∧ GetCachedTokenCount (SetCachedTokenCount (SetCachedTokenCount [] "a" "b:c" "t" 1)
        "a:b" "c" "t" 2) "a" "b:c" "t" = some 2
    ∧ (some 2 : Option Nat) ≠ some 1 :=
  ⟨by decide, rfl, rfl, by decide⟩

/-- C8: for each provider's CountTokens with a non-empty model, a request
with no text and no messages fails with InvalidParams; and when text is
present the input token count is derived from that single string alone
(messages, tools and tool choice are ignored: they do not occur in the
right-hand sides). -/
theorem countTokens_input_selection (env : Env) (c : Cache) (params : TokenCountParams) :
    (params.model ≠ "" → params.text = none → params.messages = [] →
      openaiCountTokens env params =
        .error (NewError ErrInvalidParams "either text or messages must be provided" none)
      ∧ claudeCountTokens env c params =
        (.error (NewError ErrInvalidParams "either text or messages must be provided" none), c)
      ∧ geminiCountTokens env c params =
        (.error (NewError ErrInvalidParams "either text or messages must be provided" none), c))
    ∧ (∀ t, params.model ≠ "" → params.text = some t →
      openaiCountTokens env params =
        (let inputTokens := env.encLen t
         let responseTokens :=
           if params.countResponseTokens then
             openaiEstimateResponseTokens params.model inputTokens
           else 0
         .ok ⟨inputTokens, responseTokens, inputTokens + responseTokens⟩)
      ∧ claudeCountTokens env c params =
        (let ic := claudeApproximateTokenCount c t
         let responseTokens :=
           if params.countResponseTokens then
             claudeEstimateResponseTokens params.model ic.1
           else 0
         (.ok ⟨ic.1, responseTokens, ic.1 + responseTokens⟩, ic.2))
      ∧ geminiCountTokens env c params =
        (let ic := geminiApproximateTokenCount c t
         let responseTokens :=
           if params.countResponseTokens then
             EstimateResponseTokens params.model ic.1
           else 0
         (.ok ⟨ic.1, responseTokens, ic.1 + responseTokens⟩, ic.2))) := by
  constructor
  · intro hm htext hmsgs
    refine ⟨?_, ?_, ?_⟩
    · rw [openaiCountTokens, if_neg hm, htext, hmsgs]
      rfl
    · rw [claudeCountTokens, if_neg hm, htext, hmsgs]
      rfl
    · rw [geminiCountTokens, if_neg hm, htext, hmsgs]
      rfl
  · intro t hm htext
    refine ⟨?_, ?_, ?_⟩
    · rw [openaiCountTokens, if_neg hm, htext]
    · rw [claudeCountTokens, if_neg hm, htext]
    · rw [geminiCountTokens, if_neg hm, htext]

/-- Witness for C8: with neither text nor messages every provider rejects,
and with text "hello" present alongside a nonempty messages list the
OpenAI count comes from the text alone (5 characters, one token each under
the witness encoder). -/
theorem countTokens_input_selection_witness :
    openaiCountTokens envW ⟨"claude-3-opus", none, [], [], none, false⟩ =
      .error (NewError ErrInvalidParams "either text or messages must be provided" none)
    ∧ openaiCountTokens envW ⟨"gpt-4", some "hello", [⟨"user", .str "ignored"⟩], [], none, false⟩ =
      .ok ⟨5, 0, 5⟩ := by
  constructor
  · exact ((countTokens_input_selection envW []
      ⟨"claude-3-opus", none, [], [], none, false⟩).1 (by decide) rfl rfl).1
  · exact (((countTokens_input_selection envW []
      ⟨"gpt-4", some "hello", [⟨"user", .str "ignored"⟩], [], none, false⟩).2 "hello"
      (by decide) rfl).1).trans rfl

/-- C9: for every provider, when CountResponseTokens is false every
successful TokenCount has ResponseTokens = 0 and TotalTokens =
InputTokens; the response estimate is produced only when the flag is
true. -/
theorem countResponseTokens_false_spec (env : Env) (c : Cache) (params : TokenCountParams)
    (h : params.countResponseTokens = false) :
    (∀ tc, openaiCountTokens env params = .ok tc →
      tc.responseTokens = 0 ∧ tc.totalTokens = tc.inputTokens)
    ∧ (∀ tc c2, claudeCountTokens env c params = (.ok tc, c2) →
      tc.responseTokens = 0 ∧ tc.totalTokens = tc.inputTokens)
    ∧ (∀ tc c2, geminiCountTokens env c params = (.ok tc, c2) →
      tc.responseTokens = 0 ∧ tc.totalTokens = tc.inputTokens) := by
  refine ⟨?_, ?_, ?_⟩
  · intro tc h2
    unfold openaiCountTokens at h2
    simp only [h, Bool.false_eq_true, if_false] at h2
    repeat' split at h2
    all_goals cases h2
    all_goals constructor <;> simp
  · intro tc c2 h2
    unfold claudeCountTokens at h2
    simp only [h, Bool.false_eq_true, if_false] at h2
    repeat' split at h2
    all_goals cases h2
    all_goals constructor <;> simp
  · intro tc c2 h2
    unfold geminiCountTokens at h2
    simp only [h, Bool.false_eq_true, if_false] at h2
    repeat' split at h2
    all_goals cases h2
    all_goals constructor <;> simp

/-- Witness for C9: `paramsW` has CountResponseTokens false, and the
OpenAI count it produces has ResponseTokens 0 and TotalTokens =
InputTokens. -/
theorem countResponseTokens_false_spec_witness :
    (⟨5, 0, 5⟩ : TokenCount).responseTokens = 0
    ∧ (⟨5, 0, 5⟩ : TokenCount).totalTokens = (⟨5, 0, 5⟩ : TokenCount).inputTokens :=
  (countResponseTokens_false_spec envW [] paramsW rfl).1 ⟨5, 0, 5⟩ rfl

end TokenTracker
